import Mathlib

set_option maxRecDepth 10000

/-!
# Skelz attestation-and-verification protocol: a shallow embedding

This file embeds the core of the `skelz` repository (a CLI that binds an OCI
image digest to an attestation record on the Solana ledger, plus the on-chain
Anchor program) into Lean 4, and proves or refutes the frozen specification
claims about it.

Sources embedded:
* `src/cli/src/lib.rs` — digest extraction, reference validation, evidence
  selection, publication annotations, the verification pipeline, config access.
* `src/contracts/programs/skelz/src/lib.rs` — the `write_signature`
  instruction and its PDA seed derivation.

External collaborators (the Solana SDK's `find_program_address`, the `chrono`
RFC3339 parser, the `oras` registry tool) are not code of this repository;
where a claim depends on them they are modelled from the specification's
description of the boundary, and each such definition says so in its doc
comment.
-/

/-! ## Error taxonomy

Models the failure kinds of the CLI (`anyhow::bail!` sites in
`src/cli/src/lib.rs`), named after the specification's error taxonomy (§7).
Payload fields carry the values interpolated into the Rust error messages. -/

inductive VerifyError where
  /-- "No digest found in image reference ..." / "Image reference must be canonical with digest" -/
  | invalidReference (reference : String)
  /-- "Only GitHub Container Registry is supported. ..." (constant message) -/
  | unsupportedRegistry
  /-- transport failure surfaced by `oras discover` (external call) -/
  | discoverFailed (msg : String)
  /-- "No Skelz signature artifacts found for image: ..." -/
  | noEvidenceFound (image : String)
  /-- "No skelz.signature annotation found in artifact" -/
  | missingSignatureAnnot
  /-- transport/parse failure while fetching the ledger transaction (external call) -/
  | txFetchFailed (msg : String)
  /-- "Invalid expected signer public key format" -/
  | invalidExpectedSigner (s : String)
  /-- "Invalid signer public key in transaction" -/
  | invalidSignerPubkey (s : String)
  /-- "Transaction signer mismatch: expected ..., got ..." -/
  | signerMismatch (expected got : Nat)
  /-- "Image digest mismatch: expected ..., got ..." -/
  | digestMismatch (expected got : String)
  /-- "Invalid artifact kind: expected 'oci-image', got ..." -/
  | invalidKind (got : String)
deriving DecidableEq, Repr

/-! ## String helpers

Models of the Rust `str` primitives used by the CLI (`str::find`,
`str::contains`, `str::starts_with`), over the character data of the string. -/

/-- Index (in characters) of the first occurrence of `pat` in `l`,
as `str::find` returns it. All strings involved in the protocol are ASCII,
where character and byte indices coincide. -/
def findSubAux (pat : List Char) : List Char → Option Nat
  | [] => if pat.isEmpty then some 0 else none
  | c :: rest =>
    if pat.isPrefixOf (c :: rest) then some 0
    else (findSubAux pat rest).map (· + 1)

/-- Models Rust `str::find(pat)`. -/
def strFind (hay pat : String) : Option Nat :=
  findSubAux pat.data hay.data

/-- Models Rust `str::contains(pat)`. -/
def strContains (hay pat : String) : Bool :=
  (strFind hay pat).isSome

/-- Models Rust `str::starts_with(pat)`. -/
def strStartsWith (s pat : String) : Bool :=
  pat.data.isPrefixOf s.data

/-- Everything from character index `i` (inclusive) to the end,
as Rust's slice `&s[i..]`. -/
def strDropChars (s : String) (i : Nat) : String :=
  String.mk (s.data.drop i)

/-! ## DigestCodec: `extract_digest_from_reference` (src/cli/src/lib.rs:203) -/

/-- `extract_digest_from_reference`: find the `@sha256:` marker, return
everything after the `@`; otherwise fail (spec kind `InvalidReference`). -/
def extract_digest_from_reference (image_reference : String) : Except VerifyError String :=
  match strFind image_reference "@sha256:" with
  | some start => .ok (strDropChars image_reference (start + 1))
  | none => .error (.invalidReference image_reference)

/-- The two reference-format checks at the head of `verify_image_signature`
(src/cli/src/lib.rs:675-681): the reference must contain `@sha256:` and must
start with the literal prefix `ghcr.io`. -/
def validate_reference (image_reference : String) : Except VerifyError Unit :=
  if strContains image_reference "@sha256:" = false then
    .error (.invalidReference image_reference)
  else if strStartsWith image_reference "ghcr.io" = false then
    .error .unsupportedRegistry
  else
    .ok ()

/-- The registry host of a reference in the specification's sense (§4.1): the
part of the reference before the first `/`. This definition follows the
spec's words, for comparison against the code's prefix check. -/
def referenceHost (image_reference : String) : String :=
  String.mk (image_reference.data.takeWhile (fun c => c ≠ '/'))

/-- The claim's canonical digest shape (spec §3): the literal `sha256:`
followed by exactly 64 lowercase hexadecimal characters. This definition
follows the spec's words, for comparison against what the code returns. -/
def specCanonicalDigest (d : String) : Prop :=
  ∃ hex : List Char, d = String.mk ("sha256:".data ++ hex) ∧ hex.length = 64 ∧
    ∀ c ∈ hex, c ∈ "0123456789abcdef".data

instance (d : String) : Decidable (specCanonicalDigest d) := by
  unfold specCanonicalDigest
  by_cases h : "sha256:".data.isPrefixOf d.data ∧ (d.data.drop 7).length = 64 ∧
      ∀ c ∈ d.data.drop 7, c ∈ "0123456789abcdef".data
  · refine .isTrue ⟨d.data.drop 7, ?_, h.2.1, h.2.2⟩
    have hp : "sha256:".data <+: d.data := by
      simpa [List.isPrefixOf_iff_prefix] using h.1
    obtain ⟨t, ht⟩ := hp
    cases d with
    | mk data =>
      subst ht
      simp [List.drop_append]
  · refine .isFalse ?_
    rintro ⟨hex, hd, hlen, hhex⟩
    apply h
    subst hd
    refine ⟨by simp [List.isPrefixOf_iff_prefix], ?_, ?_⟩ <;>
      simp_all

/-! ## Configuration access (src/cli/src/lib.rs:31-40, 241-252) -/

/-- `SkelzError` from src/cli/src/lib.rs:21-28. -/
inductive SkelzError where
  | configExists (path : String)
  | configNotFound (path : String)
  | unknownConfigKey (key : String)
deriving DecidableEq, Repr

/-- `SkelzConfig` (src/cli/src/lib.rs:31-40); `PathBuf` modelled as the
displayed path string. -/
structure SkelzConfig where
  cluster : String
  rpc_url : String
  keypair_path : String
  commitment : String
  ghcr_user : Option String
  ghcr_token : Option String
deriving DecidableEq, Repr

/-- `get_config_value` (src/cli/src/lib.rs:241-252). The `ghcr_token` arm
deliberately returns the constant `<redacted>` instead of the stored value. -/
def get_config_value (cfg : SkelzConfig) (key : String) : Except SkelzError String :=
  match key with
  | "cluster" => .ok cfg.cluster
  | "rpc_url" => .ok cfg.rpc_url
  | "keypair_path" => .ok cfg.keypair_path
  | "commitment" => .ok cfg.commitment
  | "ghcr_user" => .ok (cfg.ghcr_user.getD "")
  | "ghcr_token" => .ok "<redacted>"
  | _ => .error (.unknownConfigKey key)

/-! ## SHA-256

Byte-level embedding of SHA-256 (FIPS 180-4), used by the on-chain program's
seed derivation (`Sha256::digest` in src/contracts/programs/skelz/src/lib.rs:30).
Bytes and 32-bit words are `Nat` with explicit reduction modulo `2 ^ 8` /
`2 ^ 32`. -/

/-- Truncate to a 32-bit word. -/
def w32 (n : Nat) : Nat := n % 4294967296

/-- Right-rotation of a 32-bit word by `n` bits. -/
def rotr32 (n x : Nat) : Nat := w32 ((x >>> n) ||| (x <<< (32 - n)))

/-- Bitwise complement within 32 bits. -/
def not32 (x : Nat) : Nat := x ^^^ 4294967295

def bigSigma0 (x : Nat) : Nat := (rotr32 2 x) ^^^ (rotr32 13 x) ^^^ (rotr32 22 x)
def bigSigma1 (x : Nat) : Nat := (rotr32 6 x) ^^^ (rotr32 11 x) ^^^ (rotr32 25 x)
def smallSigma0 (x : Nat) : Nat := (rotr32 7 x) ^^^ (rotr32 18 x) ^^^ (x >>> 3)
def smallSigma1 (x : Nat) : Nat := (rotr32 17 x) ^^^ (rotr32 19 x) ^^^ (x >>> 10)

/-- The eight working variables of the compression function. -/
structure Sha256State where
  a : Nat
  b : Nat
  c : Nat
  d : Nat
  e : Nat
  f : Nat
  g : Nat
  h : Nat
deriving DecidableEq, Repr

def sha256Init : Sha256State :=
  ⟨1779033703, 3144134277, 1013904242, 2773480762,
   1359893119, 2600822924, 528734635, 1541459225⟩

/-- The 64 round constants. -/
def sha256K : List Nat :=
  [1116352408, 1899447441, 3049323471, 3921009573, 961987163, 1508970993,
   2453635748, 2870763221, 3624381080, 310598401, 607225278, 1426881987,
   1925078388, 2162078206, 2614888103, 3248222580, 3835390401, 4022224774,
   264347078, 604807628, 770255983, 1249150122, 1555081692, 1996064986,
   2554220882, 2821834349, 2952996808, 3210313671, 3336571891, 3584528711,
   113926993, 338241895, 666307205, 773529912, 1294757372, 1396182291,
   1695183700, 1986661051, 2177026350, 2456956037, 2730485921, 2820302411,
   3259730800, 3345764771, 3516065817, 3600352804, 4094571909, 275423344,
   430227734, 506948616, 659060556, 883997877, 958139571, 1322822218,
   1537002063, 1747873779, 1955562222, 2024104815, 2227730452, 2361852424,
   2428436474, 2756734187, 3204031479, 3329325298]

/-- One compression round. -/
def sha256Round (s : Sha256State) (k w : Nat) : Sha256State :=
  let ch := (s.e &&& s.f) ^^^ ((not32 s.e) &&& s.g)
  let t1 := w32 (s.h + bigSigma1 s.e + ch + k + w)
  let maj := (s.a &&& s.b) ^^^ (s.a &&& s.c) ^^^ (s.b &&& s.c)
  let t2 := w32 (bigSigma0 s.a + maj)
  ⟨w32 (t1 + t2), s.a, s.b, s.c, w32 (s.d + t1), s.e, s.f, s.g⟩

/-- Message-schedule extension: given the schedule so far in reverse order,
push `fuel` further words. -/
def extendLoop : Nat → List Nat → List Nat
  | 0, rws => rws
  | fuel + 1, rws =>
    let next := w32 (smallSigma1 (rws.getD 1 0) + rws.getD 6 0 +
      smallSigma0 (rws.getD 14 0) + rws.getD 15 0)
    extendLoop fuel (next :: rws)

/-- The 64-entry message schedule of one 16-word block. -/
def sha256Schedule (block : List Nat) : List Nat :=
  (extendLoop 48 block.reverse).reverse

/-- Compress one 16-word block into the running hash state. -/
def sha256Compress (hs : Sha256State) (block : List Nat) : Sha256State :=
  let r := ((sha256K.zip (sha256Schedule block)).foldl
    (fun s kw => sha256Round s kw.1 kw.2) hs)
  ⟨w32 (hs.a + r.a), w32 (hs.b + r.b), w32 (hs.c + r.c), w32 (hs.d + r.d),
   w32 (hs.e + r.e), w32 (hs.f + r.f), w32 (hs.g + r.g), w32 (hs.h + r.h)⟩

/-- Big-endian bytes of a 64-bit length field. -/
def u64be (n : Nat) : List Nat :=
  [n / 72057594037927936 % 256, n / 281474976710656 % 256,
   n / 1099511627776 % 256, n / 4294967296 % 256,
   n / 16777216 % 256, n / 65536 % 256, n / 256 % 256, n % 256]

/-- Big-endian bytes of a 32-bit word. -/
def u32be (w : Nat) : List Nat :=
  [w / 16777216 % 256, w / 65536 % 256, w / 256 % 256, w % 256]

/-- SHA-256 padding: append `0x80`, zero bytes up to 56 mod 64, and the
64-bit big-endian bit length. -/
def padMessage (msg : List Nat) : List Nat :=
  msg ++ [128] ++ List.replicate ((119 - msg.length % 64) % 64) 0 ++
    u64be (msg.length * 8)

/-- Group bytes into big-endian 32-bit words. -/
def bytesToWords : List Nat → List Nat
  | b0 :: b1 :: b2 :: b3 :: rest =>
    (b0 * 16777216 + b1 * 65536 + b2 * 256 + b3) :: bytesToWords rest
  | _ => []

/-- Split a word list into complete 16-word blocks (padding always produces a
whole number of blocks). -/
def chunkWords : List Nat → List (List Nat)
  | w0 :: w1 :: w2 :: w3 :: w4 :: w5 :: w6 :: w7 ::
    w8 :: w9 :: w10 :: w11 :: w12 :: w13 :: w14 :: w15 :: rest =>
    [w0, w1, w2, w3, w4, w5, w6, w7, w8, w9, w10, w11, w12, w13, w14, w15] ::
      chunkWords rest
  | _ => []

/-- The final SHA-256 state of a byte message. -/
def sha256State (msg : List Nat) : Sha256State :=
  (chunkWords (bytesToWords (padMessage msg))).foldl sha256Compress sha256Init

/-- SHA-256 digest of a byte message, as 32 bytes. -/
def sha256Bytes (msg : List Nat) : List Nat :=
  let s := sha256State msg
  u32be s.a ++ u32be s.b ++ u32be s.c ++ u32be s.d ++
  u32be s.e ++ u32be s.f ++ u32be s.g ++ u32be s.h

/-- The bytes of an ASCII string (all protocol strings are ASCII, where the
UTF-8 byte equals the code point). -/
def strBytes (s : String) : List Nat := s.data.map Char.toNat

/-- A big-endian byte list read as a number. -/
def bytesToNat (l : List Nat) : Nat := l.foldl (fun acc b => acc * 256 + b) 0

/-! ## RecordAddress: PDA derivation

`write_signature`'s account constraint
(src/contracts/programs/skelz/src/lib.rs:26-32) locates the record at the
program-derived address with seeds `[b"signature", Sha256(digest)]`. -/

/-- The fixed two-part seed of the record account
(src/contracts/programs/skelz/src/lib.rs:30): the constant tag `b"signature"`
and the SHA-256 hash of the digest string. -/
def write_signature_seeds (digest : String) : List (List Nat) :=
  [strBytes "signature", sha256Bytes (strBytes digest)]

/-- Modelled from the spec: `Pubkey::find_program_address`, the ledger's
deterministic-address derivation function (spec §4.2), is Solana SDK code
external to this repository. It is modelled as the SHA-256 hash — read as a
number, the address — of the concatenated seed bytes, matching the
hash-of-concatenated-seeds structure of the SDK's `create_program_address`;
the bump search and the off-curve check are elided. Like the real function it
is deterministic in the seeds and maps into the finite 32-byte address space. -/
def find_program_address (seeds : List (List Nat)) : Nat :=
  bytesToNat (sha256Bytes (seeds.foldr (· ++ ·) []))

/-- `RecordAddress.derive`: the ledger address of the attestation record of a
digest, reproducible from the digest alone. -/
def derive (digest : String) : Nat :=
  find_program_address (write_signature_seeds digest)

/-! ## AttestationStore: the `write_signature` instruction

src/contracts/programs/skelz/src/lib.rs:12-17 with the `#[account(init, ...)]`
constraint. The ledger is modelled as an association list from address to
record account; Anchor's `init` makes creation atomic and fail when the
account already exists (the spec's `DuplicateAttestation`). -/

/-- The record account `Signature`
(src/contracts/programs/skelz/src/lib.rs:36-40); `Pubkey` modelled as a
number. -/
structure SignatureAccount where
  digest : String
  signer : Nat
deriving DecidableEq, Repr

abbrev Ledger := List (Nat × SignatureAccount)

inductive StoreError where
  /-- Anchor `init` on an already-existing account: the spec's `DuplicateAttestation`. -/
  | duplicateAttestation
deriving DecidableEq, Repr

/-- `write_signature`: atomically create the record at `derive digest` iff
absent, storing the digest and the signer key; fail with
`DuplicateAttestation` when the address already holds a record. On failure
the ledger is unchanged (the transaction has no effect). -/
def write_signature (ledger : Ledger) (digest : String) (signer : Nat) :
    Except StoreError Ledger :=
  let addr := derive digest
  match ledger.lookup addr with
  | some _ => .error .duplicateAttestation
  | none => .ok ((addr, ⟨digest, signer⟩) :: ledger)

/-- `AttestationStore.read`: the record stored at an address, if any. -/
def read_record (ledger : Ledger) (addr : Nat) : Option SignatureAccount :=
  ledger.lookup addr

/-- The two concrete digests exercised by the repository's on-chain test
(src/contracts/tests/rust_client/src/main.rs:55,127). -/
def testDigest1 : String := "sha256:abc123def456789"

def testDigest2 : String := "sha256:xyz789abc123"

/-! ## RFC3339 timestamps

Modelled from the spec: evidence `created` annotations are "parsed RFC3339"
timestamps (spec §4.6). The parser used by the CLI,
`chrono::DateTime::parse_from_rfc3339`, is library code external to this
repository; it is modelled here as a map from an RFC3339 string
`YYYY-MM-DDTHH:MM:SS[.fff][Z|±HH:MM]` to nanoseconds since the Unix epoch
(`none` on any malformed input). Instants compare as integers, as `chrono`
instants do. Leap seconds are not modelled. -/

def digitVal (c : Char) : Option Nat :=
  if c.isDigit then some (c.toNat - 48) else none

def twoDigits (c1 c2 : Char) : Option Nat := do
  let d1 ← digitVal c1
  let d2 ← digitVal c2
  pure (d1 * 10 + d2)

def isLeapYear (y : Nat) : Bool :=
  y % 4 = 0 && (y % 100 ≠ 0 || y % 400 = 0)

def daysInMonth (y m : Nat) : Nat :=
  match m with
  | 1 => 31
  | 2 => if isLeapYear y then 29 else 28
  | 3 => 31
  | 4 => 30
  | 5 => 31
  | 6 => 30
  | 7 => 31
  | 8 => 31
  | 9 => 30
  | 10 => 31
  | 11 => 30
  | 12 => 31
  | _ => 0

/-- Days between a proleptic-Gregorian civil date and 1970-01-01. -/
def daysFromCivil (y : Int) (m d : Nat) : Int :=
  let y' : Int := if m ≤ 2 then y - 1 else y
  let era : Int := (if 0 ≤ y' then y' else y' - 399) / 400
  let yoe : Int := y' - era * 400
  let mp : Int := if 2 < m then (m : Int) - 3 else (m : Int) + 9
  let doy : Int := (153 * mp + 2) / 5 + (d : Int) - 1
  let doe : Int := yoe * 365 + yoe / 4 - yoe / 100 + doy
  era * 146097 + doe - 719468

/-- Optional fractional-second part: nanoseconds (digits beyond nanosecond
precision truncated) and the remaining characters. -/
def parseFrac : List Char → Option (Nat × List Char)
  | '.' :: rest =>
    let ds := rest.takeWhile Char.isDigit
    if ds.isEmpty then none
    else
      let taken := ds.take 9
      let v := taken.foldl (fun acc c => acc * 10 + (c.toNat - 48)) 0
      some (v * 10 ^ (9 - taken.length), rest.drop ds.length)
  | rest => some (0, rest)

/-- Numeric UTC offset in seconds. -/
def parseOffset : List Char → Option Int
  | ['Z'] => some 0
  | ['z'] => some 0
  | [sign, h1, h2, ':', m1, m2] =>
    if sign = '+' ∨ sign = '-' then do
      let hh ← twoDigits h1 h2
      let mm ← twoDigits m1 m2
      if hh ≤ 23 ∧ mm ≤ 59 then
        let secs : Int := hh * 3600 + mm * 60
        some (if sign = '-' then -secs else secs)
      else none
    else none
  | _ => none

def parseRfc3339 (s : String) : Option Int :=
  match s.data with
  | y1 :: y2 :: y3 :: y4 :: '-' :: m1 :: m2 :: '-' :: d1 :: d2 :: t ::
      h1 :: h2 :: ':' :: n1 :: n2 :: ':' :: s1 :: s2 :: rest =>
    if t = 'T' ∨ t = 't' ∨ t = ' ' then do
      let yh ← twoDigits y1 y2
      let yl ← twoDigits y3 y4
      let y := yh * 100 + yl
      let mo ← twoDigits m1 m2
      let da ← twoDigits d1 d2
      let hh ← twoDigits h1 h2
      let mi ← twoDigits n1 n2
      let ss ← twoDigits s1 s2
      if 1 ≤ mo ∧ mo ≤ 12 ∧ 1 ≤ da ∧ da ≤ daysInMonth y mo ∧
          hh ≤ 23 ∧ mi ≤ 59 ∧ ss ≤ 59 then
        let (nanos, rest') ← parseFrac rest
        let off ← parseOffset rest'
        some ((daysFromCivil (y : Int) mo da * 86400 +
          (hh : Int) * 3600 + (mi : Int) * 60 + (ss : Int) - off) * 1000000000 +
          (nanos : Int))
      else none
    else none
  | _ => none

/-! ## Evidence artifacts (src/cli/src/lib.rs:65-75, 453-485)

`OciArtifact` as deserialized from `oras discover`; the annotation map is
modelled as an association list (lookup by key, keys unique in practice). -/

inductive OciArtifact where
  | mk (reference : String) (mediaType : String) (digest : String) (size : Nat)
      (annotations : List (String × String)) (artifactType : String)
      (referrers : List OciArtifact)

def OciArtifact.annotations : OciArtifact → List (String × String)
  | .mk _ _ _ _ anns _ _ => anns

def OciArtifact.artifactType : OciArtifact → String
  | .mk _ _ _ _ _ t _ => t

def OciArtifact.reference : OciArtifact → String
  | .mk r _ _ _ _ _ _ => r

/-- The evidence media type (src/cli/src/lib.rs:359,459). -/
def skelzArtifactType : String := "application/vnd.skelz.proof.v1+json"

/-- The filter of `get_latest_skelz_artifact` (src/cli/src/lib.rs:457-461):
keep artifacts that carry a `skelz.signature` annotation, whose
`artifactType` is the evidence media type, and whose `skelz.original-image`
annotation equals the expected reference exactly. -/
def is_skelz_artifact (expected_image : String) (artifact : OciArtifact) : Bool :=
  (artifact.annotations.lookup "skelz.signature").isSome &&
  artifact.artifactType == skelzArtifactType &&
  artifact.annotations.lookup "skelz.original-image" == some expected_image

/-- The sort key of `get_latest_skelz_artifact` (src/cli/src/lib.rs:469-478):
the parsed `org.opencontainers.artifact.created` annotation, falling back to
`org.opencontainers.image.created`, and to the parsed Unix epoch
`1970-01-01T00:00:00Z` when the annotation is missing or unparseable. -/
def artifact_sort_time (artifact : OciArtifact) : Int :=
  (((artifact.annotations.lookup "org.opencontainers.artifact.created").orElse
      (fun _ => artifact.annotations.lookup "org.opencontainers.image.created")).bind
    parseRfc3339).getD
    ((parseRfc3339 "1970-01-01T00:00:00Z").getD 0)

/-- `get_latest_skelz_artifact` (src/cli/src/lib.rs:453-485): filter, fail if
nothing survives, sort descending by creation time (stable, as Rust
`sort_by`), return the head. -/
def get_latest_skelz_artifact (artifacts : List OciArtifact)
    (expected_image : String) : Except VerifyError OciArtifact :=
  let skelz := artifacts.filter (is_skelz_artifact expected_image)
  if skelz.isEmpty then .error (.noEvidenceFound expected_image)
  else
    match skelz.mergeSort
        (fun a b => decide (artifact_sort_time b ≤ artifact_sort_time a)) with
    | [] => .error (.noEvidenceFound expected_image)
    | top :: _ => .ok top

/-! ## Evidence publication (src/cli/src/lib.rs:311-412) -/

/-- The tool identifier (src/cli/src/lib.rs:327,365). -/
def tool_id : String := "skelz-cli@v1.0.0"

/-- `SolanaProofPayload` (src/cli/src/lib.rs:57-61) as built by
`sign_image_with_oci` (src/cli/src/lib.rs:324-328). -/
structure SolanaProofPayload where
  network : String
  tx_hash : String
  tool : String
deriving DecidableEq, Repr

def sign_proof_payload (signature : String) : SolanaProofPayload :=
  ⟨"solana-mainnet", signature, tool_id⟩

/-- The annotations `sign_image_with_oci` passes explicitly to `oras attach`
(src/cli/src/lib.rs:360-365). -/
def attach_annotation_args (signature image_reference : String) :
    List (String × String) :=
  [("skelz.signature", signature),
   ("skelz.original-image", image_reference),
   ("skelz.tool", tool_id)]

/-- Modelled from the spec: the `oras attach` registry tool is external to
this repository. Per spec §4.5 the published artifact carries a
`created=<RFC3339 now>` annotation: `oras attach` stamps the artifact with
the current RFC3339 time under `org.opencontainers.image.created` in
addition to the explicitly passed annotations. Modelled as a function of the
passed annotations and the current time string. -/
def oras_attach_annotations (anns : List (String × String)) (now : String) :
    List (String × String) :=
  anns ++ [("org.opencontainers.image.created", now)]

/-- The full annotation map of the published evidence artifact. -/
def published_evidence_annotations (signature image_reference now : String) :
    List (String × String) :=
  oras_attach_annotations (attach_annotation_args signature image_reference) now

/-! ## The verification pipeline (src/cli/src/lib.rs:529-708) -/

/-- `ImageArtifact` (src/cli/src/lib.rs:50-53). -/
structure ImageArtifact where
  kind : String
  digest : String
deriving DecidableEq, Repr

/-- `ImageSignatureMemo` (src/cli/src/lib.rs:44-47). -/
structure ImageSignatureMemo where
  version : Nat
  artifact : ImageArtifact
deriving DecidableEq, Repr

/-- The pipeline's external collaborators (spec §2, §6): `oras discover`
(`discover_oci_artifacts`, src/cli/src/lib.rs:415-450), the ledger RPC fetch
with memo decoding (`fetch_solana_transaction_with_memo`,
src/cli/src/lib.rs:530-605), and base58 public-key parsing
(`Pubkey::from_str` of the Solana SDK; `Pubkey` modelled as a number). -/
structure VerifyEnv where
  discover : String → Except VerifyError (List OciArtifact)
  fetchTx : String → Except VerifyError (String × ImageSignatureMemo)
  pubkeyFromStr : String → Option Nat

/-- `verify_transaction_signer` (src/cli/src/lib.rs:608-630): parse both
keys, fail on mismatch of the parsed keys. -/
def verify_transaction_signer (env : VerifyEnv)
    (signer_pubkey expected_signer : String) : Except VerifyError Unit :=
  match env.pubkeyFromStr expected_signer with
  | none => .error (.invalidExpectedSigner expected_signer)
  | some expected =>
    match env.pubkeyFromStr signer_pubkey with
    | none => .error (.invalidSignerPubkey signer_pubkey)
    | some signer =>
      if signer ≠ expected then .error (.signerMismatch expected signer)
      else .ok ()

/-- `verify_image_digest` (src/cli/src/lib.rs:633-662): extract the expected
digest from the reference, fail with `DigestMismatch` when the memo's digest
differs, then fail with an invalid-kind error unless the artifact kind is
`oci-image`. -/
def verify_image_digest (memo : ImageSignatureMemo)
    (expected_image_reference : String) : Except VerifyError Unit :=
  match extract_digest_from_reference expected_image_reference with
  | .error e => .error e
  | .ok expected_digest =>
    if memo.artifact.digest ≠ expected_digest then
      .error (.digestMismatch expected_digest memo.artifact.digest)
    else if memo.artifact.kind ≠ "oci-image" then
      .error (.invalidKind memo.artifact.kind)
    else .ok ()

/-- `verify_image_signature` (src/cli/src/lib.rs:665-708): the ordered,
short-circuiting pipeline — validate the reference, discover evidence,
select the latest artifact, read its `skelz.signature` annotation, fetch the
ledger transaction, compare the signer, compare the digest. -/
def verify_image_signature (env : VerifyEnv)
    (image_reference expected_signer : String) : Except VerifyError Unit := do
  validate_reference image_reference
  let artifacts ← env.discover image_reference
  let skelz_artifact ← get_latest_skelz_artifact artifacts image_reference
  let tx_signature ←
    match skelz_artifact.annotations.lookup "skelz.signature" with
    | some t => Except.ok t
    | none => Except.error VerifyError.missingSignatureAnnot
  let (signer_pubkey, memo) ← env.fetchTx tx_signature
  verify_transaction_signer env signer_pubkey expected_signer
  verify_image_digest memo image_reference

/-! ## Helper lemmas -/

theorem except_bind_ok_left {ε α β : Type} (a : α) (f : α → Except ε β) :
    (Except.ok a >>= f) = f a := rfl

theorem except_bind_err_left {ε α β : Type} (e : ε) (f : α → Except ε β) :
    (Except.error e >>= f) = Except.error e := rfl

theorem except_bind_eq_ok {ε α β : Type} {x : Except ε α} {f : α → Except ε β}
    {b : β} : (x >>= f) = .ok b ↔ ∃ a, x = .ok a ∧ f a = .ok b := by
  cases x with
  | ok a => simp [except_bind_ok_left]
  | error e => simp [except_bind_err_left]

/-- A successful find means the pattern occurs at the reported index. -/
theorem findSubAux_prefix :
    ∀ (l pat : List Char) (i : Nat), findSubAux pat l = some i →
      pat.isPrefixOf (l.drop i) = true := by
  intro l
  induction l with
  | nil =>
    intro pat i h
    unfold findSubAux at h
    split at h
    · cases h
      simp_all [List.isPrefixOf]
    · cases h
  | cons c rest ih =>
    intro pat i h
    unfold findSubAux at h
    split at h
    · cases h
      simp_all
    · obtain ⟨j, hj, rfl⟩ : ∃ j, findSubAux pat rest = some j ∧ j + 1 = i := by
        cases hf : findSubAux pat rest with
        | none => rw [hf] at h; cases h
        | some j => rw [hf] at h; cases h; exact ⟨j, rfl, rfl⟩
      simpa using ih pat j hj

deriving instance DecidableEq for Except

/-- If a string's host segment (up to the first `/`) is `p`, the string
starts with `p`. -/
theorem strStartsWith_of_referenceHost {r p : String}
    (h : referenceHost r = p) : strStartsWith r p = true := by
  unfold referenceHost at h
  unfold strStartsWith
  have hd : p.data = r.data.takeWhile (fun c => c ≠ '/') := by
    cases p with
    | mk pdata =>
      cases r with
      | mk rdata =>
        simpa using congrArg String.data h.symm
  rw [hd, List.isPrefixOf_iff_prefix]
  exact List.takeWhile_prefix _

/-! ## Claim C8 -/

/-- Claim C8: extraction from the canonical reference
`ghcr.io/acme/app@sha256:` + 64 `a`s returns `sha256:` + 64 `a`s, and
extraction from a tag-only reference fails with the invalid-reference error. -/
theorem extract_digest_concrete :
    extract_digest_from_reference
        "ghcr.io/acme/app@sha256:aaaaaaaaaaaaaaaaaaaaaaaaaaaaaaaaaaaaaaaaaaaaaaaaaaaaaaaaaaaaaaaa" =
      .ok "sha256:aaaaaaaaaaaaaaaaaaaaaaaaaaaaaaaaaaaaaaaaaaaaaaaaaaaaaaaaaaaaaaaa" ∧
    extract_digest_from_reference "ghcr.io/acme/app:latest" =
      .error (.invalidReference "ghcr.io/acme/app:latest") := by
  constructor <;> decide

/-! ## Claim C9 -/

/-- Claim C9, counterexample: the reference `ghcr.io/acme/app@sha256:zz` is
accepted by digest extraction, yet the returned digest `sha256:zz` is not of
the canonical form `sha256:` + 64 lowercase hex characters. -/
theorem extract_digest_accepts_non_canonical :
    extract_digest_from_reference "ghcr.io/acme/app@sha256:zz" = .ok "sha256:zz" ∧
    ¬ specCanonicalDigest "sha256:zz" := by
  constructor
  · decide
  · decide

/-- Claim C9, amended: every digest the extraction accepts begins with the
marker `sha256:`, but nothing beyond the marker is validated — neither the
length nor the hex alphabet of the suffix. -/
theorem extract_digest_startsWith_sha256 :
    ∀ (r d : String), extract_digest_from_reference r = .ok d →
      strStartsWith d "sha256:" = true := by
  intro r d h
  unfold extract_digest_from_reference at h
  cases hf : strFind r "@sha256:" with
  | none => rw [hf] at h; cases h
  | some i =>
    rw [hf] at h
    cases h
    have hp := findSubAux_prefix r.data "@sha256:".data i hf
    rw [List.isPrefixOf_iff_prefix] at hp
    obtain ⟨t, ht⟩ := hp
    unfold strStartsWith strDropChars
    rw [List.isPrefixOf_iff_prefix]
    have hdrop : r.data.drop (i + 1) = "sha256:".data ++ t := by
      have h1 : r.data.drop (i + 1) = (r.data.drop i).drop 1 := by
        rw [List.drop_drop]
      rw [h1, ← ht]
      rfl
    rw [hdrop]
    exact ⟨t, rfl⟩

/-- Claim C9 witness: a concrete accepted reference whose digest carries the
`sha256:` prefix. -/
theorem extract_digest_startsWith_sha256_witness :
    extract_digest_from_reference "ghcr.io/acme/app@sha256:zz" = .ok "sha256:zz" ∧
    strStartsWith "sha256:zz" "sha256:" = true :=
  ⟨by decide,
   extract_digest_startsWith_sha256 "ghcr.io/acme/app@sha256:zz" "sha256:zz" (by decide)⟩

/-! ## Claim C10 -/

/-- Claim C10: reading `ghcr_token` through `get_config_value` returns the
constant `<redacted>` for every configuration, so any two configurations —
in particular two differing only in the stored token — produce identical
output and the secret cannot flow to the caller through this operation. -/
theorem get_config_value_redacts_ghcr_token :
    ∀ cfg cfg' : SkelzConfig,
      get_config_value cfg "ghcr_token" = .ok "<redacted>" ∧
      get_config_value cfg "ghcr_token" = get_config_value cfg' "ghcr_token" := by
  intro cfg cfg'
  exact ⟨rfl, rfl⟩

/-! ## Claim C7 -/

/-- Claim C7, counterexample: the scope check is a literal prefix test, not a
host membership test. The reference below has registry host
`ghcr.io.evil.com`, which is not the allow-listed host `ghcr.io`, yet
validation accepts it. -/
theorem validate_reference_accepts_foreign_host :
    referenceHost
        "ghcr.io.evil.com/acme/app@sha256:aaaaaaaaaaaaaaaaaaaaaaaaaaaaaaaaaaaaaaaaaaaaaaaaaaaaaaaaaaaaaaaa" ≠
      "ghcr.io" ∧
    validate_reference
        "ghcr.io.evil.com/acme/app@sha256:aaaaaaaaaaaaaaaaaaaaaaaaaaaaaaaaaaaaaaaaaaaaaaaaaaaaaaaaaaaaaaaa" =
      .ok () := by
  constructor
  · decide
  · decide

/-- Claim C7, amended: among references containing `@sha256:`, validation
fails with `UnsupportedRegistry` exactly when the reference does not start
with the literal prefix `ghcr.io`; every reference whose registry host is
`ghcr.io` passes the scope check, but the prefix test also admits hosts that
merely begin with `ghcr.io`. -/
theorem validate_reference_scope :
    ∀ r : String,
      (validate_reference r = .error .unsupportedRegistry ↔
        strContains r "@sha256:" = true ∧ strStartsWith r "ghcr.io" = false) ∧
      (referenceHost r = "ghcr.io" →
        validate_reference r ≠ .error .unsupportedRegistry) := by
  intro r
  constructor
  · unfold validate_reference
    by_cases h1 : strContains r "@sha256:" = false
    · simp_all
    · by_cases h2 : strStartsWith r "ghcr.io" = false <;>
        simp_all
  · intro hh
    have := strStartsWith_of_referenceHost hh
    unfold validate_reference
    by_cases h1 : strContains r "@sha256:" = false <;>
      simp_all

/-- Claim C7 witness: a concrete reference with host `ghcr.io` passes the
scope check. -/
theorem validate_reference_scope_witness :
    referenceHost "ghcr.io/acme/app@sha256:bb" = "ghcr.io" ∧
    validate_reference "ghcr.io/acme/app@sha256:bb" ≠ .error .unsupportedRegistry :=
  ⟨by decide, (validate_reference_scope "ghcr.io/acme/app@sha256:bb").2 (by decide)⟩

/-! ## Claim C6 -/

/-- Claim C6, counterexample: matching digests are not sufficient for the
stage to succeed — with the memo's digest byte-for-byte equal to the
reference's digest but an artifact kind other than `oci-image`, the stage
fails with the invalid-kind error instead of succeeding. -/
theorem verify_image_digest_rejects_matching_digest_wrong_kind :
    extract_digest_from_reference "ghcr.io/acme/app@sha256:aa" = .ok "sha256:aa" ∧
    verify_image_digest ⟨1, ⟨"archive", "sha256:aa"⟩⟩ "ghcr.io/acme/app@sha256:aa" =
      .error (.invalidKind "archive") := by
  constructor
  · decide
  · decide

/-- Claim C6, amended: when the reference's digest extracts successfully, the
stage fails with `DigestMismatch` whenever the memo's digest differs from it,
and succeeds exactly when the digests match byte for byte and the memo's
artifact kind is `oci-image` (the stage also validates the kind). -/
theorem verify_image_digest_compare :
    ∀ (memo : ImageSignatureMemo) (r d : String),
      extract_digest_from_reference r = .ok d →
      ((memo.artifact.digest ≠ d →
          verify_image_digest memo r = .error (.digestMismatch d memo.artifact.digest)) ∧
       (verify_image_digest memo r = .ok () ↔
          memo.artifact.digest = d ∧ memo.artifact.kind = "oci-image")) := by
  intro memo r d h
  unfold verify_image_digest
  rw [h]
  constructor
  · intro hne
    simp [hne]
  · by_cases h1 : memo.artifact.digest = d <;>
      by_cases h2 : memo.artifact.kind = "oci-image" <;>
      simp [h1, h2]

/-- Claim C6 witness: a concrete one-character digest difference fails with
the digest-mismatch error. -/
theorem verify_image_digest_compare_witness :
    extract_digest_from_reference "ghcr.io/acme/app@sha256:aa" = .ok "sha256:aa" ∧
    verify_image_digest ⟨1, ⟨"oci-image", "sha256:ab"⟩⟩ "ghcr.io/acme/app@sha256:aa" =
      .error (.digestMismatch "sha256:aa" "sha256:ab") :=
  ⟨by decide,
   (verify_image_digest_compare ⟨1, ⟨"oci-image", "sha256:ab"⟩⟩
     "ghcr.io/acme/app@sha256:aa" "sha256:aa" (by decide)).1 (by decide)⟩

/-! ## Claim C5 -/

/-- Claim C5: the published evidence artifact carries all four required
annotations — the transaction id under the signature key, the signed image
reference under the original-image key, the current RFC3339 time under the
created key (stamped by the attach tool), and the tool identifier. -/
theorem published_evidence_has_required_annotations :
    ∀ (txId imageRef now : String),
      (published_evidence_annotations txId imageRef now).lookup "skelz.signature" =
        some txId ∧
      (published_evidence_annotations txId imageRef now).lookup "skelz.original-image" =
        some imageRef ∧
      (published_evidence_annotations txId imageRef now).lookup
        "org.opencontainers.image.created" = some now ∧
      (published_evidence_annotations txId imageRef now).lookup "skelz.tool" =
        some tool_id := by
  intro txId imageRef now
  exact ⟨rfl, rfl, rfl, rfl⟩

/-! ## Bounds for the address space -/

theorem u32be_mem_lt (w : Nat) : ∀ b ∈ u32be w, b < 256 := by
  intro b hb
  simp only [u32be, List.mem_cons, List.not_mem_nil, or_false] at hb
  rcases hb with h | h | h | h <;> subst h <;> omega

theorem sha256Bytes_mem_lt (m : List Nat) : ∀ b ∈ sha256Bytes m, b < 256 := by
  intro b hb
  simp only [sha256Bytes, List.mem_append] at hb
  rcases hb with ((((((h | h) | h) | h) | h) | h) | h) | h <;>
    exact u32be_mem_lt _ b h

theorem sha256Bytes_length (m : List Nat) : (sha256Bytes m).length = 32 := by
  simp [sha256Bytes, u32be]

theorem foldl_byte_lt :
    ∀ (l : List Nat) (acc : Nat), (∀ b ∈ l, b < 256) →
      List.foldl (fun a b => a * 256 + b) acc l < (acc + 1) * 256 ^ l.length := by
  intro l
  induction l with
  | nil => intro acc _; simp
  | cons b t ih =>
    intro acc h
    have hb : b < 256 := h b (by simp)
    have hrec := ih (acc * 256 + b) (fun x hx => h x (by simp [hx]))
    calc List.foldl (fun a b => a * 256 + b) acc (b :: t)
        = List.foldl (fun a b => a * 256 + b) (acc * 256 + b) t := by
          simp [List.foldl_cons]
      _ < (acc * 256 + b + 1) * 256 ^ t.length := hrec
      _ ≤ ((acc + 1) * 256) * 256 ^ t.length :=
          Nat.mul_le_mul_right _ (by omega)
      _ = (acc + 1) * 256 ^ (b :: t).length := by
          simp [List.length_cons, pow_succ]
          ring

theorem bytesToNat_lt (l : List Nat) (h : ∀ b ∈ l, b < 256) :
    bytesToNat l < 256 ^ l.length := by
  have := foldl_byte_lt l 0 h
  simpa [bytesToNat] using this

/-- Every derived record address lies in the finite 32-byte address space. -/
theorem derive_lt (d : String) : derive d < 2 ^ 256 := by
  unfold derive find_program_address
  have h1 := bytesToNat_lt _ (sha256Bytes_mem_lt
    ((write_signature_seeds d).foldr (· ++ ·) []))
  rw [sha256Bytes_length] at h1
  have h2 : (256 : Nat) ^ 32 = 2 ^ 256 := by norm_num
  rw [h2] at h1
  exact h1

instance : Infinite String :=
  Infinite.of_injective (fun n : Nat => String.mk (List.replicate n 'a'))
    (by
      intro m n h
      have := congrArg (fun s : String => s.data.length) h
      simpa using this)

/-! ## Claim C1 -/

/-- Claim C1: the attestation store is write-once. If no record exists at the
derived address, `write_signature` creates one holding the digest and the
first signer; a second `write_signature` for the same digest (hence the same
address) fails with the duplicate-attestation error, and the record stored by
the first call is untouched — a failed transaction leaves the ledger as it
was, so the stored record still names the first signer. -/
theorem write_signature_write_once :
    ∀ (ledger : Ledger) (digest : String) (s1 s2 : Nat),
      ledger.lookup (derive digest) = none →
      ∃ ledger', write_signature ledger digest s1 = .ok ledger' ∧
        write_signature ledger' digest s2 = .error .duplicateAttestation ∧
        read_record ledger' (derive digest) = some ⟨digest, s1⟩ := by
  intro L d s1 s2 h
  refine ⟨(derive d, ⟨d, s1⟩) :: L, ?_, ?_, ?_⟩
  · simp [write_signature, h]
  · simp [write_signature, List.lookup]
  · simp [read_record, List.lookup]

/-- Claim C1 witness: the two calls at the test digest on an empty ledger. -/
theorem write_signature_write_once_witness :
    (([] : Ledger).lookup (derive testDigest1) = none) ∧
    (∃ ledger', write_signature [] testDigest1 1 = .ok ledger' ∧
      write_signature ledger' testDigest1 2 = .error .duplicateAttestation ∧
      read_record ledger' (derive testDigest1) = some ⟨testDigest1, 1⟩) :=
  ⟨rfl, write_signature_write_once [] testDigest1 1 2 rfl⟩

/-! ## Claim C2 -/

/-- Claim C2, counterexample: derivation cannot be injective on all digests.
The address space is finite (32 bytes) while the digest strings are
infinitely many, so two distinct digests share an address — universal
injectivity, as claimed, is false; only collision resistance (no such pair
is feasibly constructible) can hold. -/
theorem derive_collision_exists :
    ∃ d1 d2 : String, d1 ≠ d2 ∧ derive d1 = derive d2 := by
  have h := Finite.exists_ne_map_eq_of_infinite
    (fun d : String => (⟨derive d, derive_lt d⟩ : Fin (2 ^ 256)))
  obtain ⟨x, y, hne, he⟩ := h
  refine ⟨x, y, hne, ?_⟩
  have h2 := congrArg Fin.val he
  simpa using h2

/-- Claim C2, amended: derivation is a pure function of the digest alone over
the fixed two-part seed (the constant tag `signature` and the SHA-256 hash of
the digest string), two digests receive distinct seeds — hence distinct
addresses a.s. — whenever their SHA-256 hashes do not collide, and the two
distinct digests exercised by the repository's test derive distinct
addresses; universal injectivity is impossible in a finite address space. -/
theorem derive_seed_distinct :
    (∀ d1 d2 : String,
      sha256Bytes (strBytes d1) ≠ sha256Bytes (strBytes d2) →
      write_signature_seeds d1 ≠ write_signature_seeds d2) ∧
    derive testDigest1 ≠ derive testDigest2 := by
  constructor
  · intro d1 d2 hne he
    apply hne
    simpa [write_signature_seeds] using he
  · decide

/-- Claim C2 witness: the repository's two test digests have distinct seed
hashes, hence distinct seeds. -/
theorem derive_seed_distinct_witness :
    sha256Bytes (strBytes testDigest1) ≠ sha256Bytes (strBytes testDigest2) ∧
    write_signature_seeds testDigest1 ≠ write_signature_seeds testDigest2 :=
  ⟨by decide, derive_seed_distinct.1 testDigest1 testDigest2 (by decide)⟩

/-! ## Evidence-selection lemmas -/

/-- An empty filtered set yields the no-evidence error. -/
theorem get_latest_empty (artifacts : List OciArtifact) (img : String)
    (h : artifacts.filter (is_skelz_artifact img) = []) :
    get_latest_skelz_artifact artifacts img = .error (.noEvidenceFound img) := by
  simp [get_latest_skelz_artifact, h]

/-- A nonempty filtered set yields a survivor of maximal sort time. -/
theorem get_latest_max (artifacts : List OciArtifact) (img : String)
    (hne : artifacts.filter (is_skelz_artifact img) ≠ []) :
    ∃ top, get_latest_skelz_artifact artifacts img = .ok top ∧
      top ∈ artifacts.filter (is_skelz_artifact img) ∧
      ∀ a ∈ artifacts.filter (is_skelz_artifact img),
        artifact_sort_time a ≤ artifact_sort_time top := by
  set skelz := artifacts.filter (is_skelz_artifact img) with hsk
  set le := fun a b : OciArtifact =>
    decide (artifact_sort_time b ≤ artifact_sort_time a) with hle
  have htrans : ∀ a b c, le a b → le b c → le a c := by
    intro a b c hab hbc
    simp only [hle, decide_eq_true_eq] at *
    exact le_trans hbc hab
  have htotal : ∀ a b, le a b || le b a := by
    intro a b
    simp only [hle, Bool.or_eq_true, decide_eq_true_eq]
    exact le_total _ _
  have hsorted := List.sorted_mergeSort htrans htotal skelz
  have hperm := List.mergeSort_perm skelz le
  have hempty : skelz.isEmpty = false := by
    cases hc : skelz with
    | nil => exact absurd hc hne
    | cons x xs => rfl
  cases hms : skelz.mergeSort le with
  | nil =>
    exfalso
    apply hne
    have := hms ▸ hperm
    exact this.symm.eq_nil
  | cons top rest =>
    refine ⟨top, ?_, ?_, ?_⟩
    · simp only [get_latest_skelz_artifact]
      rw [← hsk, ← hle, hempty, hms]
      simp
    · have hmem : top ∈ skelz.mergeSort le := by
        rw [hms]
        exact List.mem_cons_self _ _
      rw [List.mem_mergeSort] at hmem
      exact hmem
    · intro a ha
      have hmem : a ∈ skelz.mergeSort le := List.mem_mergeSort.mpr ha
      rw [hms] at hmem
      rcases List.mem_cons.mp hmem with rfl | hmem'
      · exact le_refl _
      · rw [hms] at hsorted
        have hrel := (List.pairwise_cons.mp hsorted).1 a hmem'
        simpa [hle] using hrel

/-- Over exactly two survivors with strictly increasing sort times, the later
one is selected. -/
theorem get_latest_pair (artifacts : List OciArtifact) (img : String)
    (a b : OciArtifact)
    (hf : artifacts.filter (is_skelz_artifact img) = [a, b])
    (hlt : artifact_sort_time a < artifact_sort_time b) :
    get_latest_skelz_artifact artifacts img = .ok b := by
  obtain ⟨top, hok, hmem, hmax⟩ := get_latest_max artifacts img (by rw [hf]; simp)
  rw [hf] at hmem hmax
  rcases List.mem_cons.mp hmem with rfl | hmem'
  · exfalso
    have := hmax b (by simp)
    omega
  · simp only [List.mem_cons, List.not_mem_nil, or_false] at hmem'
    subst hmem'
    exact hok

/-! ## Claim C4 -/

/-- An artifact of the repository's evidence shape carrying a pre-epoch
creation timestamp (1969). -/
def artifactPreEpoch : OciArtifact :=
  .mk "ghcr.io/acme/app-evidence-a" "application/vnd.oci.image.manifest.v1+json"
    "sha256:ea" 100
    [("skelz.signature", "txA"),
     ("skelz.original-image", "ghcr.io/acme/app@sha256:cc"),
     ("org.opencontainers.image.created", "1969-01-01T00:00:00Z")]
    skelzArtifactType []

/-- An artifact of the repository's evidence shape with no creation timestamp
annotation at all. -/
def artifactNoCreated : OciArtifact :=
  .mk "ghcr.io/acme/app-evidence-b" "application/vnd.oci.image.manifest.v1+json"
    "sha256:eb" 100
    [("skelz.signature", "txB"),
     ("skelz.original-image", "ghcr.io/acme/app@sha256:cc")]
    skelzArtifactType []

/-- Claim C4, counterexample: missing timestamps sort as the Unix epoch, not
as the oldest possible instant. The artifact with the valid parsed timestamp
1969-01-01 (a negative instant) sorts older than the artifact with no
timestamp, so selection returns the timestampless artifact — under the
claim's rule the 1969 artifact carries the latest parsed timestamp and would
be returned. -/
theorem get_latest_prefers_missing_over_pre_epoch :
    parseRfc3339 "1969-01-01T00:00:00Z" = some (-31536000000000000) ∧
    artifact_sort_time artifactPreEpoch < artifact_sort_time artifactNoCreated ∧
    get_latest_skelz_artifact [artifactPreEpoch, artifactNoCreated]
        "ghcr.io/acme/app@sha256:cc" = .ok artifactNoCreated ∧
    artifactNoCreated ≠ artifactPreEpoch := by
  refine ⟨by decide, by decide, ?_, ?_⟩
  · exact get_latest_pair _ _ _ _ rfl (by decide)
  · intro h
    have := congrArg OciArtifact.reference h
    simp [artifactPreEpoch, artifactNoCreated, OciArtifact.reference] at this

/-- Claim C4, amended: selection keeps exactly the artifacts whose type is
the evidence media type, whose original-image annotation equals the
reference, and which carry a signature annotation; it fails with the
no-evidence error iff that filtered set is empty, and otherwise returns a
survivor whose parsed created timestamp is maximal, artifacts with a missing
or unparseable timestamp sorting as the Unix epoch `1970-01-01T00:00:00Z`
(not as the oldest possible instant) rather than being excluded; in
particular over two survivors with timestamps T1 < T2 it returns the T2
artifact. -/
theorem get_latest_selects_latest :
    ∀ (artifacts : List OciArtifact) (img : String),
      (artifacts.filter (is_skelz_artifact img) = [] →
        get_latest_skelz_artifact artifacts img = .error (.noEvidenceFound img)) ∧
      (artifacts.filter (is_skelz_artifact img) ≠ [] →
        ∃ top, get_latest_skelz_artifact artifacts img = .ok top ∧
          top ∈ artifacts.filter (is_skelz_artifact img) ∧
          ∀ a ∈ artifacts.filter (is_skelz_artifact img),
            artifact_sort_time a ≤ artifact_sort_time top) ∧
      (∀ a : OciArtifact,
        ((a.annotations.lookup "org.opencontainers.artifact.created").orElse
            (fun _ => a.annotations.lookup "org.opencontainers.image.created")).bind
          parseRfc3339 = none →
        artifact_sort_time a = 0) ∧
      (∀ a b : OciArtifact,
        artifacts.filter (is_skelz_artifact img) = [a, b] →
        artifact_sort_time a < artifact_sort_time b →
        get_latest_skelz_artifact artifacts img = .ok b) := by
  intro artifacts img
  refine ⟨get_latest_empty artifacts img, get_latest_max artifacts img, ?_,
    fun a b hf hlt => get_latest_pair artifacts img a b hf hlt⟩
  intro a h
  unfold artifact_sort_time
  rw [h]
  decide

/-- Claim C4 witness: two concrete evidence artifacts created on consecutive
days; selection returns the later one. -/
def artifactDay1 : OciArtifact :=
  .mk "ghcr.io/acme/app-evidence-1" "application/vnd.oci.image.manifest.v1+json"
    "sha256:e1" 100
    [("skelz.signature", "tx1"),
     ("skelz.original-image", "ghcr.io/acme/app@sha256:dd"),
     ("org.opencontainers.image.created", "2024-01-01T00:00:00Z")]
    skelzArtifactType []

def artifactDay2 : OciArtifact :=
  .mk "ghcr.io/acme/app-evidence-2" "application/vnd.oci.image.manifest.v1+json"
    "sha256:e2" 100
    [("skelz.signature", "tx2"),
     ("skelz.original-image", "ghcr.io/acme/app@sha256:dd"),
     ("org.opencontainers.image.created", "2024-01-02T00:00:00Z")]
    skelzArtifactType []

theorem get_latest_selects_latest_witness :
    ([artifactDay1, artifactDay2].filter
      (is_skelz_artifact "ghcr.io/acme/app@sha256:dd") = [artifactDay1, artifactDay2]) ∧
    artifact_sort_time artifactDay1 < artifact_sort_time artifactDay2 ∧
    get_latest_skelz_artifact [artifactDay1, artifactDay2]
      "ghcr.io/acme/app@sha256:dd" = .ok artifactDay2 :=
  ⟨rfl, by decide,
   (get_latest_selects_latest [artifactDay1, artifactDay2]
     "ghcr.io/acme/app@sha256:dd").2.2.2 artifactDay1 artifactDay2 rfl (by decide)⟩

/-! ## Claim C3 -/

/-- Claim C3: `verify_image_signature` is an ordered, short-circuiting
pipeline. It succeeds iff every stage — validate reference, discover
evidence, select latest, extract the tx id, resolve the ledger record,
compare the signer, compare the digest — succeeds in that order; the first
failing stage's error is the pipeline's result (in particular, a signer
failure is reported irrespective of the digest stage, which runs after it),
and the outcome is exactly one success or one tagged failure. -/
theorem verify_image_signature_pipeline :
    ∀ (env : VerifyEnv) (ref expected : String),
      (verify_image_signature env ref expected = .ok () ↔
        (validate_reference ref = .ok () ∧
         ∃ arts, env.discover ref = .ok arts ∧
         ∃ art, get_latest_skelz_artifact arts ref = .ok art ∧
         ∃ tx, art.annotations.lookup "skelz.signature" = some tx ∧
         ∃ sp memo, env.fetchTx tx = .ok (sp, memo) ∧
           verify_transaction_signer env sp expected = .ok () ∧
           verify_image_digest memo ref = .ok ())) ∧
      (∀ e, validate_reference ref = .error e →
        verify_image_signature env ref expected = .error e) ∧
      (∀ e, validate_reference ref = .ok () → env.discover ref = .error e →
        verify_image_signature env ref expected = .error e) ∧
      (∀ arts e, validate_reference ref = .ok () → env.discover ref = .ok arts →
        get_latest_skelz_artifact arts ref = .error e →
        verify_image_signature env ref expected = .error e) ∧
      (∀ arts art, validate_reference ref = .ok () → env.discover ref = .ok arts →
        get_latest_skelz_artifact arts ref = .ok art →
        art.annotations.lookup "skelz.signature" = none →
        verify_image_signature env ref expected = .error .missingSignatureAnnot) ∧
      (∀ arts art tx e, validate_reference ref = .ok () →
        env.discover ref = .ok arts →
        get_latest_skelz_artifact arts ref = .ok art →
        art.annotations.lookup "skelz.signature" = some tx →
        env.fetchTx tx = .error e →
        verify_image_signature env ref expected = .error e) ∧
      (∀ arts art tx sp memo e, validate_reference ref = .ok () →
        env.discover ref = .ok arts →
        get_latest_skelz_artifact arts ref = .ok art →
        art.annotations.lookup "skelz.signature" = some tx →
        env.fetchTx tx = .ok (sp, memo) →
        verify_transaction_signer env sp expected = .error e →
        verify_image_signature env ref expected = .error e) ∧
      (∀ arts art tx sp memo, validate_reference ref = .ok () →
        env.discover ref = .ok arts →
        get_latest_skelz_artifact arts ref = .ok art →
        art.annotations.lookup "skelz.signature" = some tx →
        env.fetchTx tx = .ok (sp, memo) →
        verify_transaction_signer env sp expected = .ok () →
        verify_image_signature env ref expected = verify_image_digest memo ref) := by
  intro env ref expected
  refine ⟨?_, ?_, ?_, ?_, ?_, ?_, ?_, ?_⟩
  · constructor
    · intro h
      simp only [verify_image_signature] at h
      cases h1 : validate_reference ref with
      | error e =>
        rw [h1] at h
        simp only [except_bind_err_left] at h
        cases h
      | ok u =>
        cases u
        rw [h1] at h
        simp only [except_bind_ok_left] at h
        cases h2 : env.discover ref with
        | error e =>
          rw [h2] at h
          simp only [except_bind_err_left] at h
          cases h
        | ok arts =>
          rw [h2] at h
          simp only [except_bind_ok_left] at h
          cases h3 : get_latest_skelz_artifact arts ref with
          | error e =>
            rw [h3] at h
            simp only [except_bind_err_left] at h
            cases h
          | ok art =>
            rw [h3] at h
            simp only [except_bind_ok_left] at h
            cases h4 : art.annotations.lookup "skelz.signature" with
            | none =>
              rw [h4] at h
              simp only [except_bind_err_left] at h
              cases h
            | some tx =>
              rw [h4] at h
              simp only [except_bind_ok_left] at h
              cases h5 : env.fetchTx tx with
              | error e =>
                rw [h5] at h
                simp only [except_bind_err_left] at h
                cases h
              | ok pr =>
                obtain ⟨sp, memo⟩ := pr
                rw [h5] at h
                simp only [except_bind_ok_left] at h
                cases h6 : verify_transaction_signer env sp expected with
                | error e =>
                  rw [h6] at h
                  simp only [except_bind_err_left] at h
                  cases h
                | ok u2 =>
                  cases u2
                  rw [h6] at h
                  simp only [except_bind_ok_left] at h
                  exact ⟨rfl, arts, rfl, art, h3, tx, h4, sp, memo, h5, h6, h⟩
    · rintro ⟨h1, arts, h2, art, h3, tx, h4, sp, memo, h5, h6, h7⟩
      simp only [verify_image_signature]
      rw [h1]
      simp only [except_bind_ok_left]
      rw [h2]
      simp only [except_bind_ok_left]
      rw [h3]
      simp only [except_bind_ok_left]
      rw [h4]
      simp only [except_bind_ok_left]
      rw [h5]
      simp only [except_bind_ok_left]
      rw [h6]
      simp only [except_bind_ok_left]
      exact h7
  · intro e h1
    simp only [verify_image_signature]
    rw [h1]
    simp only [except_bind_err_left]
  · intro e h1 h2
    simp only [verify_image_signature]
    rw [h1]
    simp only [except_bind_ok_left]
    rw [h2]
    simp only [except_bind_err_left]
  · intro arts e h1 h2 h3
    simp only [verify_image_signature]
    rw [h1]
    simp only [except_bind_ok_left]
    rw [h2]
    simp only [except_bind_ok_left]
    rw [h3]
    simp only [except_bind_err_left]
  · intro arts art h1 h2 h3 h4
    simp only [verify_image_signature]
    rw [h1]
    simp only [except_bind_ok_left]
    rw [h2]
    simp only [except_bind_ok_left]
    rw [h3]
    simp only [except_bind_ok_left]
    rw [h4]
    simp only [except_bind_err_left]
  · intro arts art tx e h1 h2 h3 h4 h5
    simp only [verify_image_signature]
    rw [h1]
    simp only [except_bind_ok_left]
    rw [h2]
    simp only [except_bind_ok_left]
    rw [h3]
    simp only [except_bind_ok_left]
    rw [h4]
    simp only [except_bind_ok_left]
    rw [h5]
    simp only [except_bind_err_left]
  · intro arts art tx sp memo e h1 h2 h3 h4 h5 h6
    simp only [verify_image_signature]
    rw [h1]
    simp only [except_bind_ok_left]
    rw [h2]
    simp only [except_bind_ok_left]
    rw [h3]
    simp only [except_bind_ok_left]
    rw [h4]
    simp only [except_bind_ok_left]
    rw [h5]
    simp only [except_bind_ok_left]
    rw [h6]
    simp only [except_bind_err_left]
  · intro arts art tx sp memo h1 h2 h3 h4 h5 h6
    simp only [verify_image_signature]
    rw [h1]
    simp only [except_bind_ok_left]
    rw [h2]
    simp only [except_bind_ok_left]
    rw [h3]
    simp only [except_bind_ok_left]
    rw [h4]
    simp only [except_bind_ok_left]
    rw [h5]
    simp only [except_bind_ok_left]
    rw [h6]
    simp only [except_bind_ok_left]

/-- A filtered set of exactly one artifact yields that artifact. -/
theorem get_latest_singleton (artifacts : List OciArtifact) (img : String)
    (a : OciArtifact)
    (hf : artifacts.filter (is_skelz_artifact img) = [a]) :
    get_latest_skelz_artifact artifacts img = .ok a := by
  obtain ⟨top, hok, hmem, _⟩ := get_latest_max artifacts img (by rw [hf]; simp)
  rw [hf] at hmem
  simp only [List.mem_cons, List.not_mem_nil, or_false] at hmem
  subst hmem
  exact hok

/-- Concrete pipeline scenario: one evidence artifact, a transaction whose
signer differs from the expected signer, and a memo whose digest also differs
from the reference's digest. -/
def refC3 : String := "ghcr.io/acme/app@sha256:ee"

def memoC3 : ImageSignatureMemo := ⟨1, ⟨"oci-image", "sha256:ff"⟩⟩

def artC3 : OciArtifact :=
  .mk "ghcr.io/acme/app-evidence-c" "application/vnd.oci.image.manifest.v1+json"
    "sha256:ec" 100
    [("skelz.signature", "tx9"), ("skelz.original-image", refC3)]
    skelzArtifactType []

def envC3 : VerifyEnv :=
  { discover := fun _ => .ok [artC3]
    fetchTx := fun _ => .ok ("SIGNER", memoC3)
    pubkeyFromStr := fun s =>
      if s = "SIGNER" then some 11 else if s = "OWNER" then some 22 else none }

/-- Claim C3 witness: in a run where both the signer and the digest would
fail their comparisons, the pipeline reports the signer mismatch — the
stage that runs first — not the digest mismatch. -/
theorem verify_image_signature_pipeline_witness :
    verify_transaction_signer envC3 "SIGNER" "OWNER" =
      .error (.signerMismatch 22 11) ∧
    verify_image_digest memoC3 refC3 =
      .error (.digestMismatch "sha256:ee" "sha256:ff") ∧
    verify_image_signature envC3 refC3 "OWNER" =
      .error (.signerMismatch 22 11) :=
  ⟨by decide, by decide,
   (verify_image_signature_pipeline envC3 refC3 "OWNER").2.2.2.2.2.2.1
     [artC3] artC3 "tx9" "SIGNER" memoC3 (.signerMismatch 22 11)
     (by decide) rfl (get_latest_singleton [artC3] refC3 artC3 rfl) rfl rfl
     (by decide)⟩
